import Mathlib

/-!
Shallow embedding of `woodwork/column_accessor.py` (`WoodworkColumnAccessor`):
a per-column schema accessor that validates a logical type against the
column's physical (pandas) dtype, installs a schema record, and exposes
validating property getters/setters plus structural equality.

The accessor's collaborators (the logical-type catalog in
`woodwork/logical_types.py`, the schema-dict builder and validators in
`woodwork/schema_column.py`, and the type-resolution helper in
`woodwork/utils.py`) are not part of the sources; definitions for them are
modelled from the specification and marked as such in their doc comments.
Everything else is translated directly from `column_accessor.py`.
-/

set_option autoImplicit false

namespace Woodwork

/-- A single cell value of a pandas Series. `pNaN` is the missing-value
marker; as in pandas `Series.equals`, two missing markers in the same
location count as equal, which the derived equality gives us directly. -/
inductive PandasValue where
  | pInt (n : Int)
  | pStr (s : String)
  | pBool (b : Bool)
  | pNaN
  deriving DecidableEq, Repr

/-- The physical storage type (pandas dtype) of a Series. The
`category` descriptor is parameterised, as in pandas, by its category
list and ordered flag; every other descriptor here is atomic. -/
inductive Dtype where
  | int64
  | nullableInt64
  | float64
  | boolDtype
  | objectDtype
  | stringDtype
  | datetime64ns
  | category (categories : List PandasValue) (ordered : Bool)
  deriving DecidableEq, Repr

/-- `str(dtype)`: the name a pandas dtype renders to. Every categorical
dtype renders to the same string `category`, whatever its parameters. -/
def Dtype.render : Dtype → String
  | .int64 => "int64"
  | .nullableInt64 => "Int64"
  | .float64 => "float64"
  | .boolDtype => "bool"
  | .objectDtype => "object"
  | .stringDtype => "string"
  | .datetime64ns => "datetime64[ns]"
  | .category _ _ => "category"

/-- Whether a dtype descriptor is a (parameterised) categorical dtype. -/
def Dtype.isCategory : Dtype → Bool
  | .category _ _ => true
  | _ => false

/-- A pandas Series: a named, dtyped, ordered sequence of values. The
index is positional and left implicit. -/
structure Series where
  name : String
  dtype : Dtype
  values : List PandasValue
  deriving DecidableEq, Repr

/-- `pandas.Series.equals`: same dtype and the same elements in order,
with missing-value markers in the same location equal. The series name is
not compared. -/
def Series.equals (a b : Series) : Bool :=
  a.dtype == b.dtype && a.values == b.values

/-- Element-wise equality of two columns as the specification words it:
same length, same values in order, accounting for missing-value markers.
(Stated over the value lists only; list equality already forces equal
length, and `pNaN = pNaN` holds by construction.) -/
def elementwiseEqual (a b : Series) : Bool :=
  a.values == b.values

/-- Modelled from the spec: the closed logical-type catalog
(`woodwork/logical_types.py` is not among the sources). Each variant is a
type descriptor; `ordinal` is the ordered-categorical variant, carrying
its declared category order. -/
inductive LogicalType where
  | integer
  | double
  | boolean
  | categorical
  | naturalLanguage
  | datetimeType
  | ordinal (order : List PandasValue)
  deriving DecidableEq, Repr

/-- Modelled from the spec: each catalog entry declares the pandas dtype
string it requires of the column's physical storage
(`LogicalType.pandas_dtype` in `woodwork/logical_types.py`, not among the
sources). -/
def LogicalType.pandas_dtype : LogicalType → String
  | .integer => "int64"
  | .double => "float64"
  | .boolean => "bool"
  | .categorical => "category"
  | .naturalLanguage => "string"
  | .datetimeType => "datetime64[ns]"
  | .ordinal _ => "category"

/-- Modelled from the spec: `str(logical_type)`, the way a logical type
instance renders inside the incompatibility message. -/
def LogicalType.ltName : LogicalType → String
  | .integer => "Integer"
  | .double => "Double"
  | .boolean => "Boolean"
  | .categorical => "Categorical"
  | .naturalLanguage => "NaturalLanguage"
  | .datetimeType => "Datetime"
  | .ordinal _ => "Ordinal"

/-- Modelled from the spec: each catalog entry declares a default set of
standard semantic tags (`LogicalType.standard_tags`, not among the
sources). -/
def LogicalType.standard_tags : LogicalType → List String
  | .integer => ["numeric"]
  | .double => ["numeric"]
  | .boolean => []
  | .categorical => ["category"]
  | .naturalLanguage => []
  | .datetimeType => []
  | .ordinal _ => ["category"]

/-- Modelled from the spec: `Ordinal._validate_data` (the
ordered-categorical type's validation hook, not among the sources): the
declared category order must contain no duplicates and reference only
values actually present in the column. -/
def ordinalValidateData (order : List PandasValue) (s : Series) : Bool :=
  order.eraseDups == order && order.all (fun v => s.values.contains v)

/-- A JSON-serialisable metadata value. -/
inductive JsonVal where
  | jNum (n : Int)
  | jStr (s : String)
  | jBool (b : Bool)
  | jNull
  deriving DecidableEq, Repr

/-- A Python value supplied as a metadata mapping value: either a
JSON-serialisable value or an object with no JSON serialisation. -/
inductive MetaVal where
  | jsonVal (j : JsonVal)
  | nonSerializable
  deriving DecidableEq, Repr

/-- Whether a metadata mapping value is JSON-serialisable. -/
def MetaVal.isSerializable : MetaVal → Bool
  | .jsonVal _ => true
  | .nonSerializable => false

/-- The Python value supplied for the `description` argument or setter:
absent (`None`), a string, or anything else (e.g. the integer `123`). -/
inductive DescArg where
  | absent
  | strVal (s : String)
  | otherVal (shown : String)
  deriving DecidableEq, Repr

/-- The Python value supplied for the `metadata` argument or setter:
absent (`None`), a mapping of string keys to values, or a non-mapping. -/
inductive MetadataArg where
  | absent
  | mapping (m : List (String × MetaVal))
  | notAMapping
  deriving DecidableEq, Repr

/-- The `semantic_tags` argument: absent, a single string, or a
collection of strings. -/
inductive TagsArg where
  | absent
  | single (t : String)
  | coll (ts : List String)
  deriving DecidableEq, Repr

/-- The errors the accessor can raise. `incompatibleType` is the
`ValueError` raised by `_validate_logical_type` on a dtype mismatch (the
spec's `IncompatibleTypeError`); `validationError` is the
ordered-categorical content-validation failure; `typeError` covers the
shape validators and Python's `TypeError` on subscripting/assigning
through `None`; `keyError` is the key-not-found class. -/
inductive WwError where
  | incompatibleType (msg : String)
  | validationError
  | typeError (msg : String)
  | keyError (key : String)
  deriving DecidableEq, Repr

/-- Whether an error belongs to the attribute/key-not-found class
(Python's `KeyError`/`AttributeError` family), as opposed to
`TypeError`/`ValueError`. -/
def WwError.isLookupError : WwError → Bool
  | .keyError _ => true
  | _ => false

/-- The schema record (`self._schema`, the dict built by
`_get_column_dict`). `semantic_tags` is a set of strings, represented as
a duplicate-free sorted list so that structural equality of records is
set equality of tags. -/
structure ColumnSchema where
  name : String
  logical_type : LogicalType
  semantic_tags : List String
  use_standard_tags : Bool
  description : Option String
  metadata : List (String × MetaVal)
  deriving DecidableEq, Repr

/-- Insert a string into a sorted list of strings, keeping it sorted. -/
def insertSorted (x : String) : List String → List String
  | [] => [x]
  | y :: ys => if x ≤ y then x :: y :: ys else y :: insertSorted x ys

/-- Sort a list of strings (insertion sort). -/
def sortStrings : List String → List String
  | [] => []
  | x :: xs => insertSorted x (sortStrings xs)

/-- Normalise a list of tags to the canonical representation of the set
it denotes: duplicates collapsed, order forgotten (sorted). -/
def normalizeTags (ts : List String) : List String :=
  sortStrings ts.eraseDups

/-- The accessor: one bound Series plus an optional schema record
(`self._series`, `self._schema`). `__init__` installs no record. -/
structure WoodworkColumnAccessor where
  series : Series
  schema : Option ColumnSchema
  deriving DecidableEq, Repr

/-- `WoodworkColumnAccessor.__init__(series)`: binds the series and sets
`self._schema = None`. -/
def WoodworkColumnAccessor.bind (s : Series) : WoodworkColumnAccessor :=
  ⟨s, none⟩

/-- Modelled from the spec: the type-inference collaborator
(`woodwork/utils.py` is not among the sources), guessing a logical type
from the column's physical dtype. -/
def inferLogicalType (s : Series) : LogicalType :=
  match s.dtype with
  | .int64 => .integer
  | .nullableInt64 => .integer
  | .float64 => .double
  | .boolDtype => .boolean
  | .objectDtype => .naturalLanguage
  | .stringDtype => .naturalLanguage
  | .datetime64ns => .datetimeType
  | .category _ _ => .categorical

/-- Modelled from the spec: `_get_column_logical_type` (in
`woodwork/utils.py`, not among the sources): an explicitly supplied
logical type takes precedence; otherwise the type is inferred from the
column. -/
def getColumnLogicalType (s : Series) (lt : Option LogicalType) : LogicalType :=
  match lt with
  | some t => t
  | none => inferLogicalType s

/-- The exact message of the `ValueError` raised on a dtype mismatch in
`_validate_logical_type`. -/
def incompatMsg (s : Series) (lt : LogicalType) : String :=
  "Cannot initialize Woodwork. Series dtype '" ++ s.dtype.render ++
    "' is incompatible with " ++ lt.ltName ++
    " dtype. Try converting series dtype to '" ++ lt.pandas_dtype ++
    "' before initializing."

/-- `WoodworkColumnAccessor._validate_logical_type`: raise the
incompatibility `ValueError` when `logical_type.pandas_dtype !=
str(self._series.dtype)`; then, when the logical type is `Ordinal`, run
the type's own data-validation hook. -/
def validateLogicalType (s : Series) (lt : LogicalType) : Except WwError Unit :=
  if lt.pandas_dtype ≠ s.dtype.render then
    .error (.incompatibleType (incompatMsg s lt))
  else
    match lt with
    | .ordinal order =>
        if ordinalValidateData order s then .ok () else .error .validationError
    | _ => .ok ()

/-- Whether the compatibility check inside `_validate_logical_type`
passed: running the validator did not raise the incompatibility error
(it may still have raised the ordinal content-validation error, which
happens after the check). -/
def compatCheckPasses (lt : LogicalType) (s : Series) : Bool :=
  match validateLogicalType s lt with
  | .error (.incompatibleType _) => false
  | _ => true

/-- The outcome of the type-specific validation step alone: the
ordered-categorical variant defers to its validation hook on the
column's data; every other logical type performs no content validation
and succeeds. -/
def hookOutcome (s : Series) (lt : LogicalType) : Except WwError Unit :=
  match lt with
  | .ordinal order =>
      if ordinalValidateData order s then .ok () else .error .validationError
  | _ => .ok ()

/-- Modelled from the spec: `_validate_description` (in
`woodwork/schema_column.py`, not among the sources): the value must be a
string or absent, else `TypeError`. -/
def validateDescription : DescArg → Except WwError Unit
  | .absent => .ok ()
  | .strVal _ => .ok ()
  | .otherVal shown =>
      .error (.typeError ("Column description must be a string. Received " ++ shown))

/-- Modelled from the spec: `_validate_metadata` (in
`woodwork/schema_column.py`, not among the sources): the value must be a
mapping whose values are JSON-serialisable, else `TypeError`. -/
def validateMetadata : MetadataArg → Except WwError Unit
  | .mapping m =>
      if m.all (fun kv => kv.2.isSerializable) then .ok ()
      else .error (.typeError "Column metadata is not json serializable")
  | .absent => .error (.typeError "Column metadata must be a dictionary")
  | .notAMapping => .error (.typeError "Column metadata must be a dictionary")

/-- The caller-supplied tags, normalised from a single string or a
collection to a plain list. -/
def TagsArg.toList : TagsArg → List String
  | .absent => []
  | .single t => [t]
  | .coll ts => ts

/-- Modelled from the spec: `_get_column_dict` (in
`woodwork/schema_column.py`, not among the sources): validate description
and metadata shapes, default absent metadata to the empty mapping, build
the semantic-tag set as the union of the type's standard tags (when
`use_standard_tags`) with the caller's tags, and assemble the record. -/
def getColumnDict (name : String) (lt : LogicalType) (tags : TagsArg)
    (ust : Bool) (desc : DescArg) (md : MetadataArg) :
    Except WwError ColumnSchema := do
  validateDescription desc
  let storedMd ←
    match md with
    | .absent => pure []
    | _ => do
        validateMetadata md
        match md with
        | .mapping m => pure m
        | _ => pure []
  let stdTags := if ust then lt.standard_tags else []
  pure { name := name
         logical_type := lt
         semantic_tags := normalizeTags (stdTags ++ tags.toList)
         use_standard_tags := ust
         description := match desc with | .strVal s => some s | _ => none
         metadata := storedMd }

/-- `WoodworkColumnAccessor.init`: resolve the logical type, validate it
against the series dtype, then build the schema dict and assign it to
`self._schema`. Exceptions propagate before the assignment executes. -/
def WoodworkColumnAccessor.init (acc : WoodworkColumnAccessor)
    (logical_type : Option LogicalType) (semantic_tags : TagsArg)
    (use_standard_tags : Bool) (description : DescArg)
    (metadata : MetadataArg) : Except WwError WoodworkColumnAccessor := do
  let lt := getColumnLogicalType acc.series logical_type
  validateLogicalType acc.series lt
  let d ← getColumnDict acc.series.name lt semantic_tags use_standard_tags
    description metadata
  pure { acc with schema := some d }

/-- Running `init` with Python exception semantics: on success the
accessor holds the new record; on an exception the method aborts before
the single assignment to `self._schema`, so the accessor's state is the
caller's unchanged pre-state, returned alongside the raised error. -/
def initRun (acc : WoodworkColumnAccessor) (logical_type : Option LogicalType)
    (semantic_tags : TagsArg) (use_standard_tags : Bool)
    (description : DescArg) (metadata : MetadataArg) :
    WoodworkColumnAccessor × Option WwError :=
  match acc.init logical_type semantic_tags use_standard_tags description metadata with
  | .ok next => (next, none)
  | .error e => (acc, some e)

/-- The value a schema-property getter returns. -/
inductive FieldVal where
  | fvDescription (d : Option String)
  | fvLogicalType (lt : LogicalType)
  | fvTags (ts : List String)
  | fvMetadata (m : List (String × MetaVal))
  deriving DecidableEq, Repr

/-- The message of the `TypeError` Python raises for `None[key]`. -/
def noneSubscriptMsg : String :=
  "NoneType object is not subscriptable"

/-- The message of the `TypeError` Python raises for `None[key] = v`. -/
def noneAssignMsg : String :=
  "NoneType object does not support item assignment"

/-- The `description` getter: `self._schema['description']`; subscripting
the `None` installed by `__init__` raises `TypeError`. -/
def WoodworkColumnAccessor.getDescription (acc : WoodworkColumnAccessor) :
    Except WwError FieldVal :=
  match acc.schema with
  | none => .error (.typeError noneSubscriptMsg)
  | some d => .ok (.fvDescription d.description)

/-- The `logical_type` getter: `self._schema['logical_type']`. -/
def WoodworkColumnAccessor.getLogicalType (acc : WoodworkColumnAccessor) :
    Except WwError FieldVal :=
  match acc.schema with
  | none => .error (.typeError noneSubscriptMsg)
  | some d => .ok (.fvLogicalType d.logical_type)

/-- The `semantic_tags` getter: `self._schema['semantic_tags']`. -/
def WoodworkColumnAccessor.getSemanticTags (acc : WoodworkColumnAccessor) :
    Except WwError FieldVal :=
  match acc.schema with
  | none => .error (.typeError noneSubscriptMsg)
  | some d => .ok (.fvTags d.semantic_tags)

/-- The `metadata` getter: `self._schema['metadata']`. -/
def WoodworkColumnAccessor.getMetadata (acc : WoodworkColumnAccessor) :
    Except WwError FieldVal :=
  match acc.schema with
  | none => .error (.typeError noneSubscriptMsg)
  | some d => .ok (.fvMetadata d.metadata)

/-- The `description` setter: `_validate_description(description)` then
`self._schema['description'] = description`. The result pairs the
post-state with the raised error, if any. -/
def WoodworkColumnAccessor.setDescription (acc : WoodworkColumnAccessor)
    (d : DescArg) : WoodworkColumnAccessor × Option WwError :=
  match validateDescription d with
  | .error e => (acc, some e)
  | .ok _ =>
      match acc.schema with
      | none => (acc, some (.typeError noneAssignMsg))
      | some sch =>
          ({ acc with
              schema := some { sch with
                description := match d with | .strVal s => some s | _ => none } },
            none)

/-- The `metadata` setter: `_validate_metadata(metadata)` then
`self._schema['metadata'] = metadata` (full replacement). -/
def WoodworkColumnAccessor.setMetadata (acc : WoodworkColumnAccessor)
    (md : MetadataArg) : WoodworkColumnAccessor × Option WwError :=
  match validateMetadata md with
  | .error e => (acc, some e)
  | .ok _ =>
      match acc.schema with
      | none => (acc, some (.typeError noneAssignMsg))
      | some sch =>
          ({ acc with
              schema := some { sch with
                metadata := match md with | .mapping m => m | _ => [] } },
            none)

/-- `WoodworkColumnAccessor.__eq__`: unequal when the schema dicts
differ (`None` differs from every dict); otherwise defer to
`self._series.equals(other._series)`. -/
def wwEq (a b : WoodworkColumnAccessor) : Bool :=
  if a.schema ≠ b.schema then false
  else a.series.equals b.series

end Woodwork

namespace Woodwork

/-- The dtype rendering is injective outside the parameterised
categorical descriptors: two dtypes with the same rendered name are equal
unless both are categorical. -/
theorem render_eq_elim {d1 d2 : Dtype} (h : d1.render = d2.render) :
    d1 = d2 ∨ (d1.isCategory = true ∧ d2.isCategory = true) := by
  cases d1 <;> cases d2 <;>
    first
      | exact Or.inl rfl
      | exact Or.inr ⟨rfl, rfl⟩
      | exact absurd h (by simp only [Dtype.render]; decide)

/-- The compatibility check passes exactly when the logical type's
declared dtype string equals the rendered name of the series dtype. -/
theorem compatCheckPasses_iff (lt : LogicalType) (s : Series) :
    compatCheckPasses lt s = true ↔ lt.pandas_dtype = s.dtype.render := by
  unfold compatCheckPasses validateLogicalType
  by_cases h : lt.pandas_dtype = s.dtype.render
  · rw [if_neg (by simp [h])]
    cases lt <;>
      first
        | (simp [h]; done)
        | (rename_i order
           by_cases hv : ordinalValidateData order s = true <;> simp [h, hv])
  · rw [if_pos (by simp [h])]; simp [h]

end Woodwork

namespace Woodwork

/-- C1: for every column whose physical dtype renders differently from
the resolved logical type's required dtype string, `init` with that
explicit logical type raises the incompatibility error whose message
names both the column's dtype and the type's required dtype, and returns
with the accessor's schema record (initialized or not) exactly as it was
before the call. -/
theorem init_incompatible_dtype_raises_and_preserves
    (acc : WoodworkColumnAccessor) (lt : LogicalType) (tags : TagsArg)
    (ust : Bool) (desc : DescArg) (md : MetadataArg)
    (h : lt.pandas_dtype ≠ acc.series.dtype.render) :
    initRun acc (some lt) tags ust desc md =
      (acc, some (.incompatibleType
        ("Cannot initialize Woodwork. Series dtype '" ++ acc.series.dtype.render ++
         "' is incompatible with " ++ lt.ltName ++
         " dtype. Try converting series dtype to '" ++ lt.pandas_dtype ++
         "' before initializing."))) := by
  have hv : validateLogicalType acc.series lt =
      .error (.incompatibleType (incompatMsg acc.series lt)) := by
    unfold validateLogicalType; rw [if_pos h]
  unfold initRun WoodworkColumnAccessor.init getColumnLogicalType
  simp [hv, incompatMsg, Bind.bind, Except.bind]

/-- Witness for C1 at a concrete input: an `int64` column initialised
with the `Double` logical type (required dtype `float64`). -/
theorem init_incompatible_dtype_raises_and_preserves_witness :
    initRun (.bind ⟨"a", .int64, [.pInt 1]⟩) (some .double) .absent true .absent .absent =
      (.bind ⟨"a", .int64, [.pInt 1]⟩, some (.incompatibleType
        ("Cannot initialize Woodwork. Series dtype '" ++ Dtype.int64.render ++
         "' is incompatible with " ++ LogicalType.double.ltName ++
         " dtype. Try converting series dtype to '" ++ LogicalType.double.pandas_dtype ++
         "' before initializing."))) := by
  exact init_incompatible_dtype_raises_and_preserves _ .double _ _ _ _ (by decide)

/-- C2: `init` is all-or-nothing: whenever any step of an `init` call
raises, the accessor after the call is exactly the accessor before the
call — no partial record is installed and a prior record is untouched. -/
theorem init_all_or_nothing (acc : WoodworkColumnAccessor)
    (ltArg : Option LogicalType) (tags : TagsArg) (ust : Bool)
    (desc : DescArg) (md : MetadataArg) (e : WwError)
    (h : (initRun acc ltArg tags ust desc md).2 = some e) :
    (initRun acc ltArg tags ust desc md).1 = acc := by
  unfold initRun at h ⊢
  cases hh : acc.init ltArg tags ust desc md <;> simp_all

/-- Witness for C2 at a concrete input: a failing `init` (incompatible
`Boolean` type on an `int64` column) leaves the accessor unchanged. -/
theorem init_all_or_nothing_witness :
    (initRun (.bind ⟨"a", .int64, [.pInt 1]⟩) (some .boolean) .absent true .absent .absent).2 =
        some (.incompatibleType (incompatMsg ⟨"a", .int64, [.pInt 1]⟩ .boolean)) ∧
    (initRun (.bind ⟨"a", .int64, [.pInt 1]⟩) (some .boolean) .absent true .absent .absent).1 =
        .bind ⟨"a", .int64, [.pInt 1]⟩ :=
  ⟨by decide,
    init_all_or_nothing (.bind ⟨"a", .int64, [.pInt 1]⟩) (some .boolean)
      .absent true .absent .absent
      (.incompatibleType (incompatMsg ⟨"a", .int64, [.pInt 1]⟩ .boolean))
      (by decide)⟩

/-- C3 counterexample: the compatibility check is not structural
equality of type descriptors. Two structurally distinct categorical
dtype descriptors (same categories, opposite ordered flag) both pass the
check against the very same ordered-categorical logical type, although a
check by structural equality against the type's one required descriptor
would have to reject at least one of them. -/
theorem dtype_check_not_structural_cx :
    compatCheckPasses (.ordinal [.pInt 1])
        ⟨"c", .category [.pInt 1] false, [.pInt 1]⟩ = true ∧
    compatCheckPasses (.ordinal [.pInt 1])
        ⟨"c", .category [.pInt 1] true, [.pInt 1]⟩ = true ∧
    Dtype.category [.pInt 1] false ≠ Dtype.category [.pInt 1] true := by
  decide

/-- C3 amended: the compatibility check compares the rendered name of
the column's dtype with the logical type's declared dtype string, so it
is equivalent to structural equality only away from the parameterised
categorical descriptors: whenever two structurally distinct dtypes both
pass the check for the same logical type, both are categorical (they
share the rendered name `category`). -/
theorem dtype_check_structural_outside_category
    (lt : LogicalType) (s1 s2 : Series)
    (h1 : compatCheckPasses lt s1 = true) (h2 : compatCheckPasses lt s2 = true)
    (hne : s1.dtype ≠ s2.dtype) :
    s1.dtype.isCategory = true ∧ s2.dtype.isCategory = true := by
  rw [compatCheckPasses_iff] at h1 h2
  have hr : s1.dtype.render = s2.dtype.render := by rw [← h1, ← h2]
  rcases render_eq_elim hr with he | hc
  · exact absurd he hne
  · exact hc

/-- Witness for the amended C3 at a concrete input: two distinct
categorical dtypes passing the `Categorical` type's check. -/
theorem dtype_check_structural_outside_category_witness :
    (Dtype.category [] false).isCategory = true ∧
    (Dtype.category [PandasValue.pInt 1] true).isCategory = true :=
  dtype_check_structural_outside_category .categorical
    ⟨"x", .category [] false, []⟩ ⟨"x", .category [.pInt 1] true, []⟩
    (by decide) (by decide) (by decide)

/-- C4: once the compatibility check passes, `_validate_logical_type`
invokes the type's own validation hook exactly when the resolved type is
the ordered-categorical variant, raising the content-validation error
precisely when the hook rejects the declared order against the column's
values; for every non-ordinal type it performs no content validation and
succeeds. -/
theorem ordinal_hook_validation (s : Series) (lt : LogicalType)
    (h : lt.pandas_dtype = s.dtype.render) :
    validateLogicalType s lt = hookOutcome s lt := by
  cases lt <;> simp [validateLogicalType, hookOutcome, h]

/-- Witness for C4 at a concrete input: a categorical column whose
declared order references an absent value is rejected by the hook, so
`init`'s validation step raises the content-validation error. -/
theorem ordinal_hook_validation_witness :
    validateLogicalType ⟨"c", .category [.pInt 1] false, [.pInt 1]⟩
        (.ordinal [.pInt 3]) =
      hookOutcome ⟨"c", .category [.pInt 1] false, [.pInt 1]⟩ (.ordinal [.pInt 3]) ∧
    hookOutcome ⟨"c", .category [.pInt 1] false, [.pInt 1]⟩ (.ordinal [.pInt 3]) =
      .error .validationError :=
  ⟨ordinal_hook_validation _ _ (by decide), rfl⟩

end Woodwork

namespace Woodwork

/-- C5 counterexample: two accessors produced by successful `init`
calls with the same ordered-categorical logical type, whose schema
records are equal (and present) and whose columns are element-wise
equal, nevertheless compare unequal: `__eq__` defers to pandas
`Series.equals`, which additionally requires the two columns' dtypes to
be equal (here ordered vs unordered categorical dtype, both rendering
as `category`). -/
theorem eq_elementwise_claim_cx :
    ((initRun (.bind ⟨"c", .category [.pInt 1, .pInt 2] false, [.pInt 1, .pInt 2]⟩)
        (some (.ordinal [.pInt 2, .pInt 1])) .absent true .absent .absent).2 = none) ∧
    ((initRun (.bind ⟨"c", .category [.pInt 1, .pInt 2] true, [.pInt 1, .pInt 2]⟩)
        (some (.ordinal [.pInt 2, .pInt 1])) .absent true .absent .absent).2 = none) ∧
    ((initRun (.bind ⟨"c", .category [.pInt 1, .pInt 2] false, [.pInt 1, .pInt 2]⟩)
        (some (.ordinal [.pInt 2, .pInt 1])) .absent true .absent .absent).1.schema =
      (initRun (.bind ⟨"c", .category [.pInt 1, .pInt 2] true, [.pInt 1, .pInt 2]⟩)
        (some (.ordinal [.pInt 2, .pInt 1])) .absent true .absent .absent).1.schema) ∧
    ((initRun (.bind ⟨"c", .category [.pInt 1, .pInt 2] false, [.pInt 1, .pInt 2]⟩)
        (some (.ordinal [.pInt 2, .pInt 1])) .absent true .absent .absent).1.schema ≠ none) ∧
    (elementwiseEqual
      (initRun (.bind ⟨"c", .category [.pInt 1, .pInt 2] false, [.pInt 1, .pInt 2]⟩)
        (some (.ordinal [.pInt 2, .pInt 1])) .absent true .absent .absent).1.series
      (initRun (.bind ⟨"c", .category [.pInt 1, .pInt 2] true, [.pInt 1, .pInt 2]⟩)
        (some (.ordinal [.pInt 2, .pInt 1])) .absent true .absent .absent).1.series = true) ∧
    (wwEq
      (initRun (.bind ⟨"c", .category [.pInt 1, .pInt 2] false, [.pInt 1, .pInt 2]⟩)
        (some (.ordinal [.pInt 2, .pInt 1])) .absent true .absent .absent).1
      (initRun (.bind ⟨"c", .category [.pInt 1, .pInt 2] true, [.pInt 1, .pInt 2]⟩)
        (some (.ordinal [.pInt 2, .pInt 1])) .absent true .absent .absent).1 = false) := by
  decide

/-- C5 amended: accessor equality holds exactly when the schema records
(both present, or both absent) are structurally equal and the bound
columns agree as pandas `Series.equals` requires: equal dtype
descriptors and element-wise equal values (missing markers in the same
location equal). In particular an initialized accessor never equals an
uninitialized one, records differing only in description make accessors
unequal, and columns differing in any value make them unequal. -/
theorem eq_iff_schema_and_series_equals (a b : WoodworkColumnAccessor) :
    wwEq a b = true ↔
      (a.schema = b.schema ∧ a.series.dtype = b.series.dtype ∧
       a.series.values = b.series.values) := by
  by_cases h : a.schema = b.schema <;> simp [wwEq, Series.equals, h]

/-- C6 counterexample: on a concrete accessor never initialised, every
schema-property getter raises the `TypeError` produced by subscripting
`None`, which is not an error of the attribute/key-not-found class. -/
theorem uninit_read_error_class_cx :
    ((WoodworkColumnAccessor.bind ⟨"a", .int64, [.pInt 1]⟩).getLogicalType =
      .error (.typeError noneSubscriptMsg)) ∧
    ((WoodworkColumnAccessor.bind ⟨"a", .int64, [.pInt 1]⟩).getSemanticTags =
      .error (.typeError noneSubscriptMsg)) ∧
    ((WoodworkColumnAccessor.bind ⟨"a", .int64, [.pInt 1]⟩).getDescription =
      .error (.typeError noneSubscriptMsg)) ∧
    ((WoodworkColumnAccessor.bind ⟨"a", .int64, [.pInt 1]⟩).getMetadata =
      .error (.typeError noneSubscriptMsg)) ∧
    (WwError.typeError noneSubscriptMsg).isLookupError = false :=
  ⟨rfl, rfl, rfl, rfl, rfl⟩

/-- C6 amended: for every accessor on which `init` has never succeeded,
reading any schema property (logical_type, semantic_tags, description,
metadata) raises an error rather than returning a default value — namely
the `TypeError` Python raises for subscripting the `None` installed by
`__init__`, not a key/attribute-not-found error. -/
theorem uninit_read_raises_type_error (s : Series) :
    ((WoodworkColumnAccessor.bind s).getLogicalType =
      .error (.typeError noneSubscriptMsg)) ∧
    ((WoodworkColumnAccessor.bind s).getSemanticTags =
      .error (.typeError noneSubscriptMsg)) ∧
    ((WoodworkColumnAccessor.bind s).getDescription =
      .error (.typeError noneSubscriptMsg)) ∧
    ((WoodworkColumnAccessor.bind s).getMetadata =
      .error (.typeError noneSubscriptMsg)) :=
  ⟨rfl, rfl, rfl, rfl⟩

end Woodwork

namespace Woodwork

/-- C7: on an initialized accessor, the description setter raises the
shape `TypeError` for any value that is neither a string nor absent and
leaves the whole state (column and full schema record) unchanged; for a
string value it succeeds, overwrites only the description field, and a
subsequent get returns exactly that string. -/
theorem description_setter_validates_and_overwrites
    (ser : Series) (sch : ColumnSchema) :
    (∀ shown, WoodworkColumnAccessor.setDescription ⟨ser, some sch⟩ (.otherVal shown) =
        (⟨ser, some sch⟩,
          some (.typeError ("Column description must be a string. Received " ++ shown)))) ∧
    (∀ t, WoodworkColumnAccessor.setDescription ⟨ser, some sch⟩ (.strVal t) =
        (⟨ser, some { sch with description := some t }⟩, none) ∧
      (WoodworkColumnAccessor.setDescription ⟨ser, some sch⟩ (.strVal t)).1.getDescription =
        .ok (.fvDescription (some t))) :=
  ⟨fun _ => rfl, fun _ => ⟨rfl, rfl⟩⟩

/-- C8: on an initialized accessor, the metadata setter with a mapping
of JSON-serialisable values fully replaces the stored mapping (keys only
in the old mapping are gone) while every other field of the record and
the column stay unchanged; a non-mapping, or a mapping containing a
non-serialisable value, raises the shape `TypeError` and leaves the
state unchanged. -/
theorem metadata_setter_full_replace (ser : Series) (sch : ColumnSchema)
    (m mBad : List (String × MetaVal))
    (hm : m.all (fun kv => kv.2.isSerializable) = true)
    (hBad : mBad.all (fun kv => kv.2.isSerializable) = false) :
    WoodworkColumnAccessor.setMetadata ⟨ser, some sch⟩ (.mapping m) =
      (⟨ser, some { sch with metadata := m }⟩, none) ∧
    WoodworkColumnAccessor.setMetadata ⟨ser, some sch⟩ .notAMapping =
      (⟨ser, some sch⟩, some (.typeError "Column metadata must be a dictionary")) ∧
    WoodworkColumnAccessor.setMetadata ⟨ser, some sch⟩ (.mapping mBad) =
      (⟨ser, some sch⟩, some (.typeError "Column metadata is not json serializable")) := by
  refine ⟨?_, rfl, ?_⟩ <;> simp [WoodworkColumnAccessor.setMetadata, validateMetadata, hm, hBad]

/-- Witness for C8 at a concrete input: replacing `{"old": 1}` by
`{"k": 2}` drops the old key and keeps the rest of the record; a
non-serialisable value and a non-mapping both raise `TypeError`. -/
theorem metadata_setter_full_replace_witness :
    WoodworkColumnAccessor.setMetadata
        ⟨⟨"a", .int64, [.pInt 1]⟩,
          some ⟨"a", .integer, ["numeric"], true, some "d", [("old", .jsonVal (.jNum 1))]⟩⟩
        (.mapping [("k", .jsonVal (.jNum 2))]) =
      (⟨⟨"a", .int64, [.pInt 1]⟩,
          some ⟨"a", .integer, ["numeric"], true, some "d", [("k", .jsonVal (.jNum 2))]⟩⟩,
        none) ∧
    WoodworkColumnAccessor.setMetadata
        ⟨⟨"a", .int64, [.pInt 1]⟩,
          some ⟨"a", .integer, ["numeric"], true, some "d", [("old", .jsonVal (.jNum 1))]⟩⟩
        .notAMapping =
      (⟨⟨"a", .int64, [.pInt 1]⟩,
          some ⟨"a", .integer, ["numeric"], true, some "d", [("old", .jsonVal (.jNum 1))]⟩⟩,
        some (.typeError "Column metadata must be a dictionary")) ∧
    WoodworkColumnAccessor.setMetadata
        ⟨⟨"a", .int64, [.pInt 1]⟩,
          some ⟨"a", .integer, ["numeric"], true, some "d", [("old", .jsonVal (.jNum 1))]⟩⟩
        (.mapping [("k", .nonSerializable)]) =
      (⟨⟨"a", .int64, [.pInt 1]⟩,
          some ⟨"a", .integer, ["numeric"], true, some "d", [("old", .jsonVal (.jNum 1))]⟩⟩,
        some (.typeError "Column metadata is not json serializable")) :=
  metadata_setter_full_replace ⟨"a", .int64, [.pInt 1]⟩
    ⟨"a", .integer, ["numeric"], true, some "d", [("old", .jsonVal (.jNum 1))]⟩
    [("k", .jsonVal (.jNum 2))] [("k", .nonSerializable)] (by decide) (by decide)

/-- C9: on an accessor never initialised, both setters raise even for
values that pass shape validation (a string description, a fully
JSON-serialisable mapping), because there is no record to write into
(`None` does not support item assignment); the accessor stays exactly as
it was, still uninitialised — the setters never create a schema record. -/
theorem uninit_setters_raise (ser : Series) (t : String)
    (m : List (String × MetaVal))
    (hm : m.all (fun kv => kv.2.isSerializable) = true) :
    WoodworkColumnAccessor.setDescription ⟨ser, none⟩ (.strVal t) =
      (⟨ser, none⟩, some (.typeError noneAssignMsg)) ∧
    WoodworkColumnAccessor.setMetadata ⟨ser, none⟩ (.mapping m) =
      (⟨ser, none⟩, some (.typeError noneAssignMsg)) := by
  refine ⟨rfl, ?_⟩
  simp [WoodworkColumnAccessor.setMetadata, validateMetadata, hm]

/-- Witness for C9 at a concrete input. -/
theorem uninit_setters_raise_witness :
    WoodworkColumnAccessor.setDescription (.bind ⟨"a", .int64, [.pInt 1]⟩) (.strVal "text") =
      (.bind ⟨"a", .int64, [.pInt 1]⟩, some (.typeError noneAssignMsg)) ∧
    WoodworkColumnAccessor.setMetadata (.bind ⟨"a", .int64, [.pInt 1]⟩)
        (.mapping [("k", .jsonVal (.jNum 1))]) =
      (.bind ⟨"a", .int64, [.pInt 1]⟩, some (.typeError noneAssignMsg)) :=
  uninit_setters_raise ⟨"a", .int64, [.pInt 1]⟩ "text"
    [("k", .jsonVal (.jNum 1))] (by decide)

/-- C10 counterexample: two uninitialised accessors on columns that are
element-wise equal (same single integer value) still compare unequal,
because pandas `Series.equals` also requires equal dtypes (here plain
`int64` vs nullable `Int64`). -/
theorem uninit_eq_elementwise_cx :
    elementwiseEqual ⟨"a", .int64, [.pInt 1, .pInt 2]⟩
      ⟨"a", .nullableInt64, [.pInt 1, .pInt 2]⟩ = true ∧
    wwEq (.bind ⟨"a", .int64, [.pInt 1, .pInt 2]⟩)
      (.bind ⟨"a", .nullableInt64, [.pInt 1, .pInt 2]⟩) = false := by
  decide

/-- C10 amended: two uninitialised accessors (both carrying the same
absent schema record) compare equal exactly when their columns agree as
pandas `Series.equals` requires: equal dtype descriptors and
element-wise equal values; the column names play no role. -/
theorem uninit_eq_iff_series_equals (s t : Series) :
    wwEq (.bind s) (.bind t) = true ↔ (s.dtype = t.dtype ∧ s.values = t.values) := by
  simp [wwEq, WoodworkColumnAccessor.bind, Series.equals]

end Woodwork
